import Mathlib

/-!
Verification development for the moodify recommendation pipeline
(`generateClassicRecommendations` and its helpers).

The JavaScript source is shallowly embedded: pure helpers become Lean
functions over `String` / `List Char` / `ℚ` / `Int`; the outcomes of the
external network calls (Mistral completion, Mistral embeddings, Brave
search, Spotify search) are passed in as explicit oracle parameters, so a
function that `await`s a call is modelled as a function of that call's
(parsed) outcome.  JavaScript-specific semantics that matter are modelled
explicitly and noted where they occur: template-literal rendering of
`undefined`, truthiness of `0`/`""`/`undefined`, block scoping of `const`,
and IEEE division producing NaN.

JavaScript strings here are ASCII, and the embedding's string operations
(`toLowerCase`, `trim`, `slice`, `split`, `includes`) are implemented
structurally over `List Char`; they agree with the JS operations on all
ASCII data, which is the data domain of every claim below.
-/

namespace Moodify

/-! ## JS string primitives (structural, kernel-computable) -/

/-- `String.prototype.toLowerCase()` (ASCII range). -/
def jsLower (s : String) : String :=
  String.mk (s.toList.map Char.toLower)

/-- `String.prototype.trim()`: drop leading and trailing whitespace. -/
def jsTrim (s : String) : String :=
  String.mk (((s.toList.dropWhile Char.isWhitespace).reverse.dropWhile
    Char.isWhitespace).reverse)

/-- `String.prototype.slice(0, n)`: the first `n` characters. -/
def jsSlice (n : Nat) (s : String) : String :=
  String.mk (s.toList.take n)

/-- Helper for `split(' ')`: accumulates the current field (reversed). -/
def splitSpaceAux : List Char → List Char → List String
  | acc, [] => [String.mk acc.reverse]
  | acc, c :: cs =>
    if c = ' ' then String.mk acc.reverse :: splitSpaceAux [] cs
    else splitSpaceAux (c :: acc) cs

/-- `String.prototype.split(' ')`: split on every single space, keeping
empty fields (as JS does). -/
def jsSplitSpace (s : String) : List String :=
  splitSpaceAux [] s.toList

/-- Bool-valued check that `pre` is a prefix of `l`. -/
def listPrefixEq : List Char → List Char → Bool
  | [], _ => true
  | _ :: _, [] => false
  | a :: as, b :: bs => a = b && listPrefixEq as bs

/-- Bool-valued check that `needle` occurs as a contiguous sublist of the
second argument. -/
def listIncludes (needle : List Char) : List Char → Bool
  | [] => needle.isEmpty
  | c :: cs => listPrefixEq needle (c :: cs) || listIncludes needle cs

/-- `hay.includes(needle)` from JS. -/
def jsIncludes (hay needle : String) : Bool :=
  listIncludes needle.toList hay.toList

/-! ## JS value helpers -/

/-- Template-literal rendering of a possibly-`undefined` string:
in JS, interpolating `undefined` produces the literal text "undefined". -/
def jsTemplate : Option String → String
  | none => "undefined"
  | some s => s

/-- JS truthiness of a string value: `undefined` and `""` are falsy. -/
def jsTruthy : Option String → Bool
  | none => false
  | some s => decide (s ≠ "")

/-- JS `x || d` on a numeric field: `undefined` and `0` are falsy, so both
fall back to the default. -/
def jsOrNat (x : Option Nat) (d : Nat) : Nat :=
  match x with
  | none => d
  | some n => if n = 0 then d else n

/-! ## Data model

`Song` is one candidate object flowing through the pipeline.  Every field
the pipeline reads is optional, because the objects come from regex
extraction or model-generated JSON and any field may be absent.
`cultural_impact_score` and `alignment_score` are JS numbers, modelled as
exact rationals. -/

structure Song where
  title : Option String
  artist : Option String
  album : Option String
  year : Option Int
  genre : Option String
  source : Option String
  cultural_impact_score : Option ℚ
  alignment_score : Option ℚ
deriving DecidableEq

/-- Structured intent extracted from the prompt (analysis JSON or the
regex fallback).  Fields may be absent when the analysis JSON omits them. -/
structure Constraints where
  targetCount : Option Nat
  minCount : Option Nat
  decade : Option String
  specificArtist : Option String
  mood : Option String
deriving DecidableEq

/-! ## Deduplication (`removeDuplicateSongsFast`) -/

/-- One component of the dedup key:
`song.title?.toLowerCase().trim().slice(0, 20)`.  When the field is
`undefined`, optional chaining yields `undefined` and the template literal
renders it as the text "undefined". -/
def dedupKeyPart : Option String → String
  | none => "undefined"
  | some s => jsSlice 20 (jsTrim (jsLower s))

/-- The template-literal dedup key `` `${titlePart}-${artistPart}` ``. -/
def songKey (s : Song) : String :=
  dedupKeyPart s.title ++ "-" ++ dedupKeyPart s.artist

/-- The `filter` with a mutable `seen : Set` from the source, as a
recursion carrying the set of keys seen so far. -/
def removeDupAux (seen : List String) : List Song → List Song
  | [] => []
  | s :: rest =>
    if songKey s ∈ seen then removeDupAux seen rest
    else s :: removeDupAux (songKey s :: seen) rest

/-- `removeDuplicateSongsFast`: keep a song iff its key was not seen on an
earlier song; first-seen instance wins. -/
def removeDuplicateSongsFast (songs : List Song) : List Song :=
  removeDupAux [] songs

/-- Specification-side deduplication, written from the spec's words: keep
each list head, then recursively keep the first-seen song of every later
key, dropping all later songs whose key equals the head's. -/
def dedupeSpec : List Song → List Song
  | [] => []
  | s :: rest => s :: (dedupeSpec rest).filter (fun t => songKey t ≠ songKey s)

/-! ## Basic scoring (inline in `combineAndVerifyAlignmentFast`) -/

/-- The prompt keywords used for scoring:
`originalPrompt.toLowerCase().split(' ').filter(term => term.length > 2)`. -/
def promptSearchTerms (prompt : String) : List String :=
  (jsSplitSpace (jsLower prompt)).filter (fun t => t.length > 2)

/-- The song text the code matches keywords against:
`` `${song.title} ${song.artist}`.toLowerCase() `` — a missing field is
rendered as the literal text "undefined". -/
def songTextJs (song : Song) : String :=
  jsLower (jsTemplate song.title ++ " " ++ jsTemplate song.artist)

/-- The JS test `!song.title || song.title.length < 2` (and likewise for
artist): truthiness makes `undefined` and `""` fail, and `""` also has
length `0 < 2`, so the test is "absent, or shorter than 2 characters". -/
def shortOrMissing : Option String → Bool
  | none => true
  | some t => decide (t.length < 2)

/-- Basic scoring, translated from the `map` body at the start of
`combineAndVerifyAlignmentFast`: source bonus, year bonus (with JS
truthiness on `song.year`), cultural-impact bonus (with JS truthiness),
keyword matches, and the two independent −3 penalties. -/
def basicScore (song : Song) (originalPrompt : String) : Int :=
  let score0 : Int := 0
  let score1 : Int :=
    if song.source = some "mistral_ai_generation" then score0 + 5
    else if song.source = some "brave_search" then score0 + 2
    else score0
  let score2 : Int :=
    match song.year with
    | some y => if y ≠ 0 ∧ 1950 ≤ y ∧ y ≤ 2024 then score1 + 2 else score1
    | none => score1
  let score3 : Int :=
    match song.cultural_impact_score with
    | some v => if v ≠ 0 ∧ 6 ≤ v then score2 + 3 else score2
    | none => score2
  let keywordMatches : Int :=
    ((promptSearchTerms originalPrompt).filter
      (fun term => jsIncludes (songTextJs song) term)).length
  let score4 : Int := score3 + keywordMatches
  let score5 : Int := if shortOrMissing song.title then score4 - 3 else score4
  if shortOrMissing song.artist then score5 - 3 else score5

/-- The keyword-matching text as the claim states it, with a missing field
contributing nothing (the empty string) to "title artist". -/
def songTextSpec (song : Song) : String :=
  jsLower (song.title.getD "" ++ " " ++ song.artist.getD "")

/-- The scoring formula exactly as the claim states it: 0, plus the source
bonus, plus 2 for a year in [1950, 2024], plus 3 for cultural impact ≥ 6,
plus the number of prompt words longer than 2 characters occurring in
"title artist", minus 3 for a missing/too-short title and minus 3 for a
missing/too-short artist. -/
def specBasicScore (song : Song) (prompt : String) : Int :=
  (if song.source = some "mistral_ai_generation" then (5 : Int)
   else if song.source = some "brave_search" then 2 else 0)
  + (match song.year with
     | some y => if 1950 ≤ y ∧ y ≤ 2024 then (2 : Int) else 0
     | none => 0)
  + (match song.cultural_impact_score with
     | some v => if 6 ≤ v then (3 : Int) else 0
     | none => 0)
  + ((promptSearchTerms prompt).filter
      (fun term => jsIncludes (songTextSpec song) term)).length
  - (if shortOrMissing song.title then 3 else 0)
  - (if shortOrMissing song.artist then 3 else 0)

/-- The claim's scoring formula amended only in the keyword-matching text:
a missing title or artist is rendered as the literal text "undefined"
(JS template-literal behaviour), as the code does. -/
def specBasicScoreJs (song : Song) (prompt : String) : Int :=
  (if song.source = some "mistral_ai_generation" then (5 : Int)
   else if song.source = some "brave_search" then 2 else 0)
  + (match song.year with
     | some y => if 1950 ≤ y ∧ y ≤ 2024 then (2 : Int) else 0
     | none => 0)
  + (match song.cultural_impact_score with
     | some v => if 6 ≤ v then (3 : Int) else 0
     | none => 0)
  + ((promptSearchTerms prompt).filter
      (fun term => jsIncludes (songTextJs song) term)).length
  - (if shortOrMissing song.title then 3 else 0)
  - (if shortOrMissing song.artist then 3 else 0)

/-! ## Prompt number extraction (`extractNumberFromPrompt`)

The regex `\b(\d+)\b` finds the leftmost maximal digit run with a word
boundary on both sides (JS word characters are `[A-Za-z0-9_]`), and
`parseInt` converts it.  The scan below advances one position at a time,
exactly as the regex engine does after a failed match attempt; note that a
digit run followed by a word character (such as "60s") is not a match. -/

/-- JS `\w`: ASCII letters, digits, underscore. -/
def isJsWordChar (c : Char) : Bool :=
  c.isAlpha || c.isDigit || c = '_'

/-- `parseInt` on a string of decimal digits. -/
def digitsToNat (l : List Char) : Nat :=
  l.foldl (fun n c => 10 * n + (c.toNat - '0'.toNat)) 0

/-- Leftmost match of `\b(\d+)\b`, scanning with the word-char status of
the previous character. -/
def findIntWordMatch : Bool → List Char → Option Nat
  | _, [] => none
  | prevIsWord, c :: cs =>
    if !prevIsWord && c.isDigit then
      let run := (c :: cs).takeWhile Char.isDigit
      match (c :: cs).dropWhile Char.isDigit with
      | [] => some (digitsToNat run)
      | d :: _ =>
        if isJsWordChar d then findIntWordMatch (isJsWordChar c) cs
        else some (digitsToNat run)
    else findIntWordMatch (isJsWordChar c) cs

/-- `extractNumberFromPrompt`: `prompt.match(/\b(\d+)\b/)`, then
`parseInt` of the capture; `none` when there is no match (JS `null`). -/
def extractNumberFromPrompt (prompt : String) : Option Nat :=
  findIntWordMatch false prompt.toList

/-! ## Artist extraction (`extractArtistFromPrompt`)

Three ordered patterns, each tried with `prompt.match(...)` (leftmost
match); a pattern's capture wins if its length exceeds 3, else the next
pattern is tried.  The patterns' quantifiers are over disjoint character
classes (letters vs. whitespace), so greedy maximal-run scanning is exact:
no backtracking into a run can ever succeed. -/

/-- The `[A-Za-z\s]` class of the "by X" / "from X" captures. -/
def isArtistClassChar (c : Char) : Bool :=
  c.isAlpha || c.isWhitespace

/-- Case-insensitive match of a literal pattern (given in lowercase) at
the head of the text; non-letter pattern characters match exactly. -/
def litMatches : List Char → List Char → Bool
  | [], _ => true
  | _ :: _, [] => false
  | p :: ps, c :: cs => c.toLower = p && litMatches ps cs

/-- Leftmost match of `lit([A-Za-z\s]+)` (the "by " / "from " patterns,
`/i` flag): scan for the literal, then capture the maximal nonempty run of
class characters; on failure resume scanning one position later. -/
def matchLitCapture (lit : List Char) : List Char → Option String
  | [] => none
  | c :: cs =>
    if litMatches lit (c :: cs) then
      let cap := ((c :: cs).drop lit.length).takeWhile isArtistClassChar
      if cap.isEmpty then matchLitCapture lit cs else some (String.mk cap)
    else matchLitCapture lit cs

/-- One attempt of `([A-Z][a-z]+\s[A-Z][a-z]+)\s+songs` (with `/i`, so
both classes are simply "letter") anchored at the head of the text. -/
def tryProperAt (l : List Char) : Option String :=
  match l with
  | [] => none
  | c1 :: rest1 =>
    if c1.isAlpha then
      let w1 := rest1.takeWhile Char.isAlpha
      let r1 := rest1.dropWhile Char.isAlpha
      if w1.isEmpty then none
      else
        match r1 with
        | [] => none
        | s1 :: rest2 =>
          if s1.isWhitespace then
            match rest2 with
            | [] => none
            | c2 :: rest3 =>
              if c2.isAlpha then
                let w2 := rest3.takeWhile Char.isAlpha
                let r2 := rest3.dropWhile Char.isAlpha
                if w2.isEmpty then none
                else
                  let ws := r2.takeWhile Char.isWhitespace
                  let r3 := r2.dropWhile Char.isWhitespace
                  if ws.isEmpty then none
                  else if litMatches ['s', 'o', 'n', 'g', 's'] r3 then
                    some (String.mk (c1 :: (w1 ++ s1 :: c2 :: w2)))
                  else none
              else none
          else none
    else none

/-- Leftmost match of the third pattern. -/
def matchProperNounSongs : List Char → Option String
  | [] => none
  | c :: cs =>
    match tryProperAt (c :: cs) with
    | some cap => some cap
    | none => matchProperNounSongs cs

/-- `extractArtistFromPrompt`: try the three patterns in order; the first
capture with length > 3 is returned trimmed, else `null`. -/
def extractArtistFromPrompt (prompt : String) : Option String :=
  [matchLitCapture ['b', 'y', ' '] prompt.toList,
   matchLitCapture ['f', 'r', 'o', 'm', ' '] prompt.toList,
   matchProperNounSongs prompt.toList].findSome?
    (fun m =>
      match m with
      | some cap => if cap.length > 3 then some (jsTrim cap) else none
      | none => none)

/-! ## Prompt analyzer fallback (`analyzeUserPromptFast`, catch branch) -/

/-- Output shape of `analyzeUserPromptFast`.  `originalEmbedding` is the
prompt's embedding vector when the embeddings call succeeded. -/
structure AnalysisResult where
  constraints : Constraints
  searchQueries : List String
  refinedPrompt : String
  keywords : List String
  originalEmbedding : Option (List Real)

/-- The ultra-fast fallback of `analyzeUserPromptFast`, returned whenever
the generative call, the embeddings call, or JSON parsing fails.
`extractNumberFromPrompt(prompt) || 10` makes both `null` and `0` fall
back to 10. -/
def analyzeUserPromptFastFallback (prompt : String) : AnalysisResult :=
  let fallbackCount := jsOrNat (extractNumberFromPrompt prompt) 10
  { constraints :=
      { targetCount := some (min fallbackCount 15)
        minCount := some (min fallbackCount 3)
        decade := none
        specificArtist := extractArtistFromPrompt prompt
        mood := some "balanced" }
    searchQueries := [prompt ++ " songs best", prompt ++ " music top"]
    refinedPrompt := prompt
    keywords := ((prompt.splitOn " ").filter (fun w => w.length > 2)).take 5
    originalEmbedding := none }

/-! ## Fusion engine (`combineAndVerifyAlignmentFast`) -/

/-- `SPEED_CONFIG.maxCandidatesForEmbedding`. -/
def maxCandidatesForEmbedding : Nat := 15

/-- The client-side post-verification filter: drop a song unless it has an
alignment score of at least 6 (JS: `!score || score < 6` drops), and, when
a specific artist was requested (a truthy `constraints.specificArtist`),
unless one of the two lowercased artist strings contains the other
(`song.artist?.toLowerCase() || ''` renders a missing artist as `""`). -/
def passesVerificationFilter (constraints : Constraints) (song : Song) : Bool :=
  match song.alignment_score with
  | none => false
  | some a =>
    if a < 6 then false
    else
      match constraints.specificArtist with
      | none => true
      | some req =>
        if req = "" then true
        else
          let requestedArtist := jsLower req
          let songArtist :=
            match song.artist with
            | some s => jsLower s
            | none => ""
          jsIncludes songArtist requestedArtist ||
            jsIncludes requestedArtist songArtist

/-- `combineAndVerifyAlignmentFast`.  The AI verification call and its
JSON parse are the oracle `verifyOutcome`: `none` when the call or the
parse throws, `some none` when it parses to a non-array (handled by
`Array.isArray ? _ : []`), `some (some verified)` when it parses to an
array.  The basic-scoring/sorting/semantic-ranking of candidates only
shapes the payload of the verification request, so given the oracle
response the returned value does not depend on it; the semantic-ranking
stage itself is modelled separately (`rankSongsBySementicSimilarityFast`).

The catch branch is the one JavaScript subtlety here: `allSongs` is
declared with `const` inside the `try` block, so it is *not in scope* in
the `catch` block, and evaluating the intended fallback raises
`ReferenceError: allSongs is not defined`, which propagates to the caller
as a rejection.  The model returns that error on the failure path. -/
def combineAndVerifyAlignmentFast (webResults aiResults : List Song)
    (originalPrompt : String) (_originalEmbedding : Option (List Real))
    (verifyOutcome : Option (Option (List Song))) (constraints : Constraints) :
    Except String (List Song) :=
  let allSongs := removeDuplicateSongsFast (webResults ++ aiResults)
  if allSongs.length = 0 then .ok []
  else
    let scoredSongs := allSongs.map (fun song => (song, basicScore song originalPrompt))
    let _topCandidates :=
      (scoredSongs.mergeSort (fun a b => decide (b.2 ≤ a.2))).take
        maxCandidatesForEmbedding
    match verifyOutcome with
    | none => .error "ReferenceError: allSongs is not defined"
    | some parsed =>
      let verified := parsed.getD []
      let filtered := verified.filter (passesVerificationFilter constraints)
      .ok (filtered.take (jsOrNat constraints.targetCount 12))

/-- Modelled from the spec: the failure fallback that §4.4 step 5 (and the
source's own `catch` comment) intends — when verification fails, return
the top `targetCount` (default 12) of the merged+deduplicated list
filtered only to songs with truthy (non-empty) title and artist, in
post-merge order.  The missing piece of code is the in-scope `allSongs`
binding itself. -/
def specVerificationFallback (webResults aiResults : List Song)
    (constraints : Constraints) : List Song :=
  ((removeDuplicateSongsFast (webResults ++ aiResults)).filter
      (fun song => jsTruthy song.title && jsTruthy song.artist)).take
    (jsOrNat constraints.targetCount 12)

/-! ## Catalog resolver (`searchTracksOnSpotifyFast` and helpers) -/

/-- A track returned by the Spotify search: `{name, artists:[{name}]}`,
keeping the two fields the matcher reads. -/
structure SpTrack where
  name : String
  artists : List String
deriving DecidableEq

/-- `calculateStringSimilarityFast`: 1 on equal strings, 0 when either is
empty, else the character-set overlap ratio |chars₁ ∩ chars₂| / max size.
JS `Set` holds the distinct characters; the inputs are lowercased again
inside the function. -/
def calculateStringSimilarityFast (str1 str2 : String) : ℚ :=
  if str1 = str2 then 1
  else if str1.length = 0 || str2.length = 0 then 0
  else
    let chars1 := (jsLower str1).toList.dedup
    let chars2 := (jsLower str2).toList.dedup
    let interLen := (chars1.filter (fun c => c ∈ chars2)).length
    (interLen : ℚ) / (max chars1.length chars2.length : ℚ)

/-- `Math.max(...track.artists.map(a => sim(a.name, targetArtist)))`.
`Math.max()` of an empty spread is `-Infinity`; the stand-in `-1` agrees
with it under the only comparison performed downstream
(`0.6*titleSim + 0.4*artistSim > 0.5` fails for any value ≤ −1/4, since
titleSim ≤ 1), and similarities are otherwise in [0, 1], so the fold's
seed never wins on a nonempty artist list. -/
def maxArtistSimilarity (artistNames : List String) (targetArtist : String) : ℚ :=
  (artistNames.map
    (fun a => calculateStringSimilarityFast (jsLower a) (jsLower targetArtist))).foldl
    max (-1)

/-- The combined score `(titleSim * 0.6) + (artistSim * 0.4)` of one
candidate track against the target song's title and artist.  JS float
constants 0.6/0.4/0.5 are modelled as exact rationals; the similarities
are small exact ratios, far from the comparison threshold in every
scenario below. -/
def combinedTrackScore (track : SpTrack) (title artist : String) : ℚ :=
  calculateStringSimilarityFast (jsLower track.name) (jsLower title) * (6 / 10)
    + maxArtistSimilarity track.artists (jsLower artist) * (4 / 10)

/-- `findBestTrackMatchFast`: `null` when no candidates were returned;
otherwise the first candidate with combined score > 0.5, and failing that
the first candidate unconditionally (`return tracks[0]`). -/
def findBestTrackMatchFast (tracks : List SpTrack) (title artist : String) :
    Option SpTrack :=
  match tracks with
  | [] => none
  | t0 :: _ =>
    some ((tracks.find? (fun t => decide (combinedTrackScore t title artist > 1 / 2))).getD t0)

/-- The strict field-scoped query `track:"T" artist:"A"`. -/
def strictQuery (title artist : String) : String :=
  "track:\"" ++ title ++ "\" artist:\"" ++ artist ++ "\""

/-- The loose free-text query `T A`. -/
def looseQuery (title artist : String) : String :=
  title ++ " " ++ artist

/-- The per-song strategy loop: try the strict then the loose query, and
return the first query's non-null best match together with the winning
query (recorded as `search_strategy` in `classicMetadata`).  The catalog
search is the oracle `search` from query strings to returned track lists
(the API call caps them at `limit=2`). -/
def searchSpotifyForSong (search : String → List SpTrack) (title artist : String) :
    Option (SpTrack × String) :=
  [strictQuery title artist, looseQuery title artist].findSome?
    (fun q => (findBestTrackMatchFast (search q) title artist).map (fun t => (t, q)))

/-- Resolution of one song.  A song with a missing title or artist always
resolves to `null`: each query either returns no tracks (null match) or
the matcher evaluates `undefined.toLowerCase()` and the resulting
TypeError is swallowed by the per-song `catch`, which returns `null`. -/
def resolveSongOnSpotify (search : String → List SpTrack) (song : Song) :
    Option (SpTrack × String) :=
  match song.title, song.artist with
  | some t, some a => searchSpotifyForSong search t a
  | _, _ => none

/-- `searchTracksOnSpotifyFast`: batches of 8 songs run concurrently, but
`Promise.all` preserves input order within a batch and batches are
sequential, so the output is the input-order list of non-null resolutions
(the 100ms inter-batch delay has no observable effect on the value). -/
def searchTracksOnSpotifyFast (search : String → List SpTrack)
    (songs : List Song) : List (SpTrack × String) :=
  songs.filterMap (resolveSongOnSpotify search)

/-! ## Entry point (`generateClassicRecommendations`) -/

/-- The outcomes of the external calls made during one pipeline run:
the analysis result (that stage never throws — it has its own fallback),
the two source fetchers' outputs (each degrades to `[]` on failure), the
AI-verification oracle, and the catalog-search oracle. -/
structure PipelineEnv where
  prompt : String
  analysis : AnalysisResult
  webResults : List Song
  aiResults : List Song
  verifyOutcome : Option (Option (List Song))
  spotifySearch : String → List SpTrack

/-- The thrown message
`` `Not enough quality results: found ${x}, need ${y}` ``. -/
def insufficientMessage (found need : Nat) : String :=
  "Not enough quality results: found " ++ toString found ++ ", need " ++
    toString need

/-- `alignedSongs.slice(0, Math.min(targetCount, 15))`: when `targetCount`
is absent, `Math.min(undefined, 15)` is NaN and `slice(0, NaN)` is the
empty list. -/
def sliceForSpotify (constraints : Constraints) (songs : List Song) : List Song :=
  match constraints.targetCount with
  | some t => songs.take (min t 15)
  | none => []

/-- The body of `generateClassicRecommendations`'s `try` block, after the
analysis and the two parallel fetches: align, check the insufficiency
floor (when `minCount` is absent, `length < Math.min(undefined, 3)` is a
comparison with NaN and is false), then resolve on Spotify.  An `error`
value is a thrown exception. -/
def generateBody (env : PipelineEnv) : Except String (List (SpTrack × String)) :=
  match combineAndVerifyAlignmentFast env.webResults env.aiResults env.prompt
      env.analysis.originalEmbedding env.verifyOutcome env.analysis.constraints with
  | .error e => .error e
  | .ok alignedSongs =>
    match env.analysis.constraints.minCount with
    | none =>
      .ok (searchTracksOnSpotifyFast env.spotifySearch
        (sliceForSpotify env.analysis.constraints alignedSongs))
    | some m =>
      if alignedSongs.length < min m 3 then
        .error (insufficientMessage alignedSongs.length (min m 3))
      else
        .ok (searchTracksOnSpotifyFast env.spotifySearch
          (sliceForSpotify env.analysis.constraints alignedSongs))

/-- `generateClassicRecommendations`: the top-level `catch (err)` turns
every thrown error — the insufficient-results throw included — into a
returned empty array. -/
def generateClassicRecommendations (env : PipelineEnv) : List (SpTrack × String) :=
  match generateBody env with
  | .ok tracks => tracks
  | .error _ => []

/-! ## Cosine similarity and semantic ranking

JS numbers are IEEE doubles; for this stage they are modelled as
`Option ℝ`, with `none` playing NaN ("no real value").  The only places a
non-real value can arise in `cosineSimilarity` are (a) indexing past the
end of `vecB` (`undefined` poisons the sum to NaN) and (b) the unguarded
division: when the divisor is 0 the dividend is provably 0 too (a zero
magnitude forces a zero dot product), so the JS value is `0/0 = NaN`. -/

/-- `Math.sqrt(vec.reduce((s,a) => s + a*a, 0))`. -/
noncomputable def magnitude (v : List Real) : Real :=
  Real.sqrt ((v.map (fun a => a * a)).sum)

/-- `vecA.reduce((sum, a, i) => sum + a * vecB[i], 0)`: when `vecB` is
shorter than `vecA`, some `vecB[i]` is `undefined` and the sum is NaN. -/
noncomputable def dotProductJs (vecA vecB : List Real) : Option Real :=
  if vecB.length < vecA.length then none
  else some ((List.zipWith (fun a b => a * b) vecA vecB).sum)

open Classical in
/-- IEEE division as it occurs here: a zero divisor yields a non-real
value (`0/0` is NaN — the reachable case, since a zero magnitude forces a
zero dot product — and `x/0` is `±Infinity`); both are modelled as
`none`. -/
noncomputable def jsDiv (a b : Real) : Option Real :=
  if b = 0 then none else some (a / b)

/-- `cosineSimilarity`: `dotProduct / (magnitudeA * magnitudeB)`, with no
zero guard on the divisor. -/
noncomputable def cosineSimilarity (vecA vecB : List Real) : Option Real :=
  (dotProductJs vecA vecB).bind
    (fun dot => jsDiv dot (magnitude vecA * magnitude vecB))

open Classical in
/-- The sort comparator `(a, b) => b.similarity_score - a.similarity_score`
as a `≤`-style Bool relation: `a` may precede `b` when the comparator is
≤ 0.  When either score is NaN the comparator evaluates to NaN, which
ECMAScript's SortCompare treats as 0 (a tie), so such pairs compare as
equal in both directions. -/
noncomputable def similarityCompareLe (a b : Song × Option Real) : Bool :=
  match a.2, b.2 with
  | some x, some y => decide (y - x ≤ 0)
  | _, _ => true

/-- `rankSongsBySementicSimilarityFast` (sic).  The batch embeddings call
is the oracle `embedOutcome`: `none` when it fails, in which case the
`catch` returns the input list unchanged (no scores attached); when it
returns fewer vectors than songs, `embeddingData[index]` is `undefined`
and the TypeError lands in the same `catch`.  Otherwise every song gets
`similarity_score := cosineSimilarity(originalEmbedding, embedding)` — NaN
(`none`) included, with no filtering — and the list is sorted by the
comparator above (a stable mergesort; ECMAScript leaves the order under an
inconsistent comparator implementation-defined, and any implementation
produces some permutation, which is all the theorems below use). -/
noncomputable def rankSongsBySementicSimilarityFast (filteredSongs : List Song)
    (originalEmbedding : List Real) (embedOutcome : Option (List (List Real))) :
    List (Song × Option Real) :=
  match embedOutcome with
  | none => filteredSongs.map (fun s => (s, none))
  | some embs =>
    if embs.length < filteredSongs.length then filteredSongs.map (fun s => (s, none))
    else
      ((filteredSongs.zip embs).map
        (fun p => (p.1, cosineSimilarity originalEmbedding p.2))).mergeSort
        similarityCompareLe

/-! ## Decidability of `Except` results -/

instance exceptDecEq {ε α : Type} [DecidableEq ε] [DecidableEq α] :
    DecidableEq (Except ε α) := fun x y =>
  match x, y with
  | .ok a, .ok b =>
    if h : a = b then isTrue (by rw [h]) else isFalse (by simp [h])
  | .error e, .error f =>
    if h : e = f then isTrue (by rw [h]) else isFalse (by simp [h])
  | .ok _, .error _ => isFalse (by simp)
  | .error _, .ok _ => isFalse (by simp)

/-! ## Concrete instances used by the theorems below -/

/-- A well-formed web-search candidate. -/
def songHeyJude : Song :=
  ⟨some "Hey Jude", some "The Beatles", none, none, none, some "brave_search",
    none, none⟩

/-- Constraints with `targetCount` 12 and `minCount` 3 (the spec's §8
scenario). -/
def c2Constraints : Constraints := ⟨some 12, some 3, none, none, none⟩

/-- The spec's §8 dedup collision example: title truncating to
"a very long song tit". -/
def songLongA : Song :=
  ⟨some "A Very Long Song Title Extended", some "X", none, none, none, none,
    none, none⟩

/-- Same first 20 title characters as `songLongA`, different beyond them
and in other fields. -/
def songLongB : Song :=
  ⟨some "A Very Long Song Title Truncated", some "X", none, some 1999, none,
    some "brave_search", none, none⟩

/-- A song with no title: its keyword-matching text renders as
"undefined x". -/
def songC6 : Song := ⟨none, some "x", none, none, none, none, none, none⟩

/-- A verified song with a missing artist and alignment score 7. -/
def songNoArtistVer : Song :=
  ⟨some "Rolling in the Deep", none, none, none, none, none, none, some 7⟩

/-- Constraints requesting the specific artist "adele". -/
def artistConstraints : Constraints := ⟨some 12, some 3, none, some "adele", none⟩

/-- A pipeline run in which both fetchers produced one usable song but the
AI verification pass returned an empty array, so the aligned list is
empty: the insufficient-results situation. -/
def envC1 : PipelineEnv :=
  ⟨"rock", analyzeUserPromptFastFallback "rock", [], [songHeyJude],
    some (some []), fun _ => []⟩

/-- The same run except the verification call itself failed — an upstream
failure reaching the entry point's catch-all. -/
def envC1fail : PipelineEnv :=
  ⟨"rock", analyzeUserPromptFastFallback "rock", [], [songHeyJude], none,
    fun _ => []⟩

/-- A candidate sharing no character with the target "abc": both
similarities are 0, so it never qualifies. -/
def trackBad : SpTrack := ⟨"xyz", ["xyz"]⟩

/-- An exact match for the target "abc": combined score 1. -/
def trackGood : SpTrack := ⟨"abc", ["abc"]⟩

/-- A catalog in which the strict query returns only the non-qualifying
candidate and the loose query returns the exact match. -/
def c4Search : String → List SpTrack := fun q =>
  if q = strictQuery "abc" "abc" then [trackBad]
  else if q = looseQuery "abc" "abc" then [trackGood] else []

/-- A song carried through the semantic-ranking stage. -/
def songC10 : Song :=
  ⟨some "Imagine", some "John Lennon", none, none, none, none, none, none⟩

/-! ## Deduplication: correspondence with the first-seen-per-key spec -/

theorem removeDupAux_eq (l : List Song) : ∀ seen : List String,
    removeDupAux seen l = (dedupeSpec l).filter (fun t => decide (songKey t ∉ seen)) := by
  induction l with
  | nil => intro seen; rfl
  | cons s rest ih =>
    intro seen
    by_cases h : songKey s ∈ seen
    · rw [show removeDupAux seen (s :: rest) = removeDupAux seen rest from by
        simp [removeDupAux, h]]
      rw [ih seen, dedupeSpec,
        List.filter_cons_of_neg (by simp [h]), List.filter_filter]
      refine List.filter_congr (fun t _ => ?_)
      by_cases ht : songKey t ∈ seen
      · simp [ht]
      · by_cases ht2 : songKey t = songKey s
        · exact absurd (ht2 ▸ h) ht
        · simp [ht, ht2]
    · rw [show removeDupAux seen (s :: rest)
          = s :: removeDupAux (songKey s :: seen) rest from by
        simp [removeDupAux, h]]
      rw [ih, dedupeSpec, List.filter_cons_of_pos (by simp [h]),
        List.filter_filter]
      refine congrArg (s :: ·) (List.filter_congr (fun t _ => ?_))
      by_cases ht : songKey t ∈ seen
      · simp [ht, List.mem_cons]
      · by_cases ht2 : songKey t = songKey s
        · simp [ht, ht2, List.mem_cons]
        · simp [ht, ht2, List.mem_cons]

theorem removeDup_eq_dedupeSpec (l : List Song) :
    removeDuplicateSongsFast l = dedupeSpec l := by
  rw [removeDuplicateSongsFast, removeDupAux_eq]
  exact List.filter_eq_self.mpr (fun a _ => by simp)

theorem dedupeSpec_filter_key (q : String → Bool) : ∀ l : List Song,
    dedupeSpec (l.filter (fun t => q (songKey t)))
      = (dedupeSpec l).filter (fun t => q (songKey t)) := by
  intro l
  induction l with
  | nil => rfl
  | cons s rest ih =>
    by_cases hq : q (songKey s)
    · rw [List.filter_cons_of_pos (by simpa using hq), dedupeSpec, dedupeSpec,
        ih, List.filter_cons_of_pos (by simpa using hq), List.filter_comm]
    · rw [List.filter_cons_of_neg (by simp [hq]), dedupeSpec,
        List.filter_cons_of_neg (by simp [hq]), ih, List.filter_filter]
      refine List.filter_congr (fun t _ => ?_)
      by_cases ht : songKey t = songKey s
      · simp [ht, hq]
      · simp [ht]

theorem dedupeSpec_idem : ∀ l : List Song,
    dedupeSpec (dedupeSpec l) = dedupeSpec l := by
  intro l
  induction l with
  | nil => rfl
  | cons s rest ih =>
    rw [dedupeSpec, dedupeSpec,
      dedupeSpec_filter_key (fun k => decide (k ≠ songKey s)) (dedupeSpec rest),
      ih, List.filter_filter]
    refine congrArg (s :: ·) (List.filter_congr (fun t _ => ?_))
    simp

/-! ## Other supporting lemmas -/

theorem listIncludes_nil_needle (l : List Char) : listIncludes [] l = true := by
  cases l <;> simp [listIncludes, listPrefixEq]

theorem simXyzAbc : calculateStringSimilarityFast "xyz" "abc" = 0 := by
  rw [calculateStringSimilarityFast]
  rw [if_neg (by decide), if_neg (by decide)]
  norm_num
  exact Or.inl (by decide)

theorem simAbcAbc : calculateStringSimilarityFast "abc" "abc" = 1 := by
  rw [calculateStringSimilarityFast, if_pos rfl]

theorem scoreTrackBad : combinedTrackScore trackBad "abc" "abc" = 0 := by
  rw [combinedTrackScore, maxArtistSimilarity]
  simp only [trackBad, List.map, List.foldl,
    show jsLower "xyz" = "xyz" from by decide,
    show jsLower "abc" = "abc" from by decide, simXyzAbc]
  norm_num

theorem scoreTrackGood : combinedTrackScore trackGood "abc" "abc" = 1 := by
  rw [combinedTrackScore, maxArtistSimilarity]
  simp only [trackGood, List.map, List.foldl,
    show jsLower "abc" = "abc" from by decide, simAbcAbc]
  norm_num

theorem sumSquares_nonneg (v : List Real) : 0 ≤ (v.map (fun a => a * a)).sum :=
  List.sum_nonneg (fun x hx => by
    rcases List.mem_map.mp hx with ⟨a, _, rfl⟩; exact mul_self_nonneg a)

theorem sum_squares_zero : ∀ v : List Real,
    (v.map (fun a => a * a)).sum = 0 → ∀ x ∈ v, x = 0 := by
  intro v
  induction v with
  | nil => intro _ x hx; simp at hx
  | cons a as ih =>
    intro h x hx
    rw [List.map_cons, List.sum_cons] at h
    have h1 : 0 ≤ a * a := mul_self_nonneg a
    have h2 : 0 ≤ (as.map (fun b => b * b)).sum := sumSquares_nonneg as
    rcases List.mem_cons.mp hx with rfl | hx2
    · exact mul_self_eq_zero.mp (by linarith)
    · exact ih (by linarith) x hx2

theorem magnitude_zero_elems (v : List Real) (h : magnitude v = 0) :
    ∀ x ∈ v, x = 0 := by
  rw [magnitude] at h
  exact sum_squares_zero v (le_antisymm (Real.sqrt_eq_zero'.mp h) (sumSquares_nonneg v))

theorem zipWith_sum_zero : ∀ v w : List Real, (∀ x ∈ v, x = 0) →
    (List.zipWith (fun a b => a * b) v w).sum = 0 := by
  intro v
  induction v with
  | nil => intro w _; simp
  | cons a as ih =>
    intro w h
    cases w with
    | nil => simp
    | cons b bs =>
      rw [List.zipWith_cons_cons, List.sum_cons, h a (List.mem_cons_self a as),
        zero_mul, zero_add]
      exact ih bs (fun x hx => h x (List.mem_cons_of_mem a hx))

/-! ## Claims -/

/-- C1 (counterexample): the claim says an insufficient-results condition
is surfaced distinctly to the caller rather than a bare empty array.  On
`envC1` the aligned list is empty (fewer than `min(minCount, 3) = 3`), yet
the entry point returns the bare empty array — the very same value it
returns on `envC1fail`, whose verification call failed upstream
(`ReferenceError` rejection reaching the top-level catch).  The caller
cannot distinguish the two. -/
theorem claim_C1_counterexample :
    combineAndVerifyAlignmentFast envC1.webResults envC1.aiResults envC1.prompt
        envC1.analysis.originalEmbedding envC1.verifyOutcome
        envC1.analysis.constraints = .ok []
    ∧ envC1.analysis.constraints.minCount = some 3
    ∧ generateClassicRecommendations envC1 = []
    ∧ combineAndVerifyAlignmentFast envC1fail.webResults envC1fail.aiResults
        envC1fail.prompt envC1fail.analysis.originalEmbedding
        envC1fail.verifyOutcome envC1fail.analysis.constraints
        = .error "ReferenceError: allSongs is not defined"
    ∧ generateClassicRecommendations envC1fail = [] :=
  ⟨by decide, by decide, by decide, by decide, by decide⟩

/-- C1 (amended): when the aligned list has fewer than `min(minCount, 3)`
entries, the pipeline body raises the internal insufficient-results error
(never returning the too-short list), but the entry point's top-level
catch converts it to the empty array, so the caller receives `[]` exactly
as for any other pipeline failure. -/
theorem claim_C1 (env : PipelineEnv) (aligned : List Song) (m : Nat)
    (hok : combineAndVerifyAlignmentFast env.webResults env.aiResults env.prompt
      env.analysis.originalEmbedding env.verifyOutcome env.analysis.constraints
      = .ok aligned)
    (hm : env.analysis.constraints.minCount = some m)
    (hlt : aligned.length < min m 3) :
    generateBody env = .error (insufficientMessage aligned.length (min m 3))
    ∧ generateClassicRecommendations env = [] := by
  have hbody : generateBody env
      = .error (insufficientMessage aligned.length (min m 3)) := by
    simp only [generateBody, hok, hm]
    rw [if_pos hlt]
  exact ⟨hbody, by simp only [generateClassicRecommendations, hbody]⟩

/-- C1 (witness): the amended theorem applied to the concrete
insufficient-results run `envC1`. -/
theorem claim_C1_witness :
    generateBody envC1
      = .error (insufficientMessage (List.length ([] : List Song)) (min 3 3))
    ∧ generateClassicRecommendations envC1 = [] :=
  claim_C1 envC1 [] 3 (by decide) (by decide) (by decide)

/-- C2 (code_bug): when the AI verification step fails, the claimed
fallback never runs: `allSongs` is a `const` of the `try` block and is out
of scope in the `catch` block, so the catch itself raises a
`ReferenceError` that propagates to the caller.  The second conjunct
evaluates the fallback the spec (and the source's own comment) describes,
showing what the code was meant to return at this input. -/
theorem claim_C2 :
    combineAndVerifyAlignmentFast [songHeyJude] [] "upbeat rock" none none
        c2Constraints = .error "ReferenceError: allSongs is not defined"
    ∧ specVerificationFallback [songHeyJude] [] c2Constraints = [songHeyJude] :=
  ⟨by decide, by decide⟩

/-- C3: the analyzer fallback extracts the first standalone integer of the
prompt as `targetCount`; on "Beatles songs from the 60s, 5 songs" the
digits of "60s" have no trailing word boundary, so the match is 5; with no
integer the default is 10; and the value is always capped at 15. -/
theorem claim_C3 :
    (analyzeUserPromptFastFallback
        "Beatles songs from the 60s, 5 songs").constraints.targetCount = some 5
    ∧ (∀ prompt, extractNumberFromPrompt prompt = none →
        (analyzeUserPromptFastFallback prompt).constraints.targetCount = some 10)
    ∧ (∀ prompt n,
        (analyzeUserPromptFastFallback prompt).constraints.targetCount = some n →
        n ≤ 15) := by
  refine ⟨by decide, fun prompt h => ?_, fun prompt n h => ?_⟩
  · simp [analyzeUserPromptFastFallback, jsOrNat, h]
  · simp only [analyzeUserPromptFastFallback, Option.some.injEq] at h
    omega

/-- C3 (witness): the default and the cap at the concrete prompt "rock",
which contains no integer. -/
theorem claim_C3_witness :
    (analyzeUserPromptFastFallback "rock").constraints.targetCount = some 10
    ∧ 10 ≤ 15 :=
  ⟨claim_C3.2.1 "rock" (by decide),
   claim_C3.2.2 "rock" 10 (claim_C3.2.1 "rock" (by decide))⟩

/-- C4 (counterexample): the claim says the first returned candidate is
accepted unconditionally only once all formulations are exhausted and no
candidate qualified.  With `c4Search`, the strict query returns only the
non-qualifying `trackBad` (combined score 0 ≤ 0.5) while the loose query
holds the qualifying `trackGood` (combined score 1 > 0.5) — yet resolution
accepts `trackBad` from the strict query and never tries the loose one. -/
theorem claim_C4_counterexample :
    searchSpotifyForSong c4Search "abc" "abc"
      = some (trackBad, strictQuery "abc" "abc")
    ∧ ¬(combinedTrackScore trackBad "abc" "abc" > 1 / 2)
    ∧ c4Search (looseQuery "abc" "abc") = [trackGood]
    ∧ combinedTrackScore trackGood "abc" "abc" > 1 / 2
    ∧ trackBad ≠ trackGood := by
  refine ⟨?_, by rw [scoreTrackBad]; norm_num, by decide,
    by rw [scoreTrackGood]; norm_num, by decide⟩
  have hq1 : c4Search (strictQuery "abc" "abc") = [trackBad] := by decide
  have hp : (decide (combinedTrackScore trackBad "abc" "abc" > 1 / 2)) = false := by
    rw [decide_eq_false_iff_not, scoreTrackBad]; norm_num
  rw [searchSpotifyForSong]
  simp only [List.findSome?, hq1, findBestTrackMatchFast, List.find?, hp,
    Option.getD, Option.map]

/-- C4 (amended): the resolver tries the strict then the loose query; for
the first formulation returning a nonempty candidate list it accepts the
first candidate scoring > 0.5, else that list's first candidate
unconditionally — so a later formulation is consulted only when the
earlier one returned zero candidates; and when both return zero
candidates the song resolves to nothing, without an error. -/
theorem claim_C4 (search : String → List SpTrack) (title artist : String) :
    (search (strictQuery title artist) = [] →
      search (looseQuery title artist) = [] →
      searchSpotifyForSong search title artist = none)
    ∧ (∀ t0 ts, search (strictQuery title artist) = t0 :: ts →
        searchSpotifyForSong search title artist =
          some (((t0 :: ts).find?
              (fun t => decide (combinedTrackScore t title artist > 1 / 2))).getD t0,
            strictQuery title artist))
    ∧ (search (strictQuery title artist) = [] →
        ∀ t0 ts, search (looseQuery title artist) = t0 :: ts →
        searchSpotifyForSong search title artist =
          some (((t0 :: ts).find?
              (fun t => decide (combinedTrackScore t title artist > 1 / 2))).getD t0,
            looseQuery title artist)) := by
  refine ⟨fun h1 h2 => ?_, fun t0 ts h1 => ?_, fun h1 t0 ts h2 => ?_⟩
  · simp [searchSpotifyForSong, List.findSome?, h1, h2, findBestTrackMatchFast]
  · simp [searchSpotifyForSong, List.findSome?, h1, findBestTrackMatchFast]
  · simp [searchSpotifyForSong, List.findSome?, h1, h2, findBestTrackMatchFast]

/-- C4 (witness): with a catalog returning no candidates for any query,
the song resolves to nothing. -/
theorem claim_C4_witness :
    searchSpotifyForSong (fun _ => ([] : List SpTrack)) "Hey Jude" "The Beatles"
      = none :=
  (claim_C4 (fun _ => []) "Hey Jude" "The Beatles").1 rfl rfl

/-- C5: deduplication keeps exactly the first-seen song per key
(`removeDuplicateSongsFast` equals the first-seen-per-key reference
`dedupeSpec`); the key is built only from the lowercased, trimmed,
20-character-truncated title and artist, so songs agreeing on those
truncated parts get equal keys regardless of every other field; and the
two concrete songs differing only beyond character 20 of the title (and in
other fields) collide, the first-seen one surviving. -/
theorem claim_C5 :
    (∀ songs, removeDuplicateSongsFast songs = dedupeSpec songs)
    ∧ (∀ s1 s2 : Song, dedupKeyPart s1.title = dedupKeyPart s2.title →
        dedupKeyPart s1.artist = dedupKeyPart s2.artist →
        songKey s1 = songKey s2)
    ∧ songKey songLongA = songKey songLongB
    ∧ songLongA ≠ songLongB
    ∧ removeDuplicateSongsFast [songLongA, songLongB] = [songLongA] := by
  refine ⟨removeDup_eq_dedupeSpec, fun s1 s2 h1 h2 => ?_, by decide, by decide,
    by decide⟩
  rw [songKey, songKey, h1, h2]

/-- C5 (witness): the key-equality implication applied to the two concrete
colliding songs. -/
theorem claim_C5_witness : songKey songLongA = songKey songLongB :=
  claim_C5.2.1 songLongA songLongB (by decide) (by decide)

/-- C6 (counterexample): the claim's formula counts prompt words occurring
in "title artist".  For the titleless `songC6` and the prompt "undefined",
the code's keyword text is the template-literal rendering "undefined x",
so "undefined" matches and the code scores −5, while the claim's formula
(missing title contributing nothing) scores −6. -/
theorem claim_C6_counterexample :
    basicScore songC6 "undefined" = -5
    ∧ specBasicScore songC6 "undefined" = -6 :=
  ⟨by decide, by decide⟩

/-- C6 (amended): basic scoring equals the claim's formula amended in one
point — the keyword-matching text renders a missing title or artist as the
literal text "undefined" (JS template-literal behaviour).  Being an
equation between total functions of the song and prompt, this also gives
the claimed purity/determinism. -/
theorem claim_C6 (song : Song) (prompt : String) :
    basicScore song prompt = specBasicScoreJs song prompt := by
  rcases song with ⟨t, ar, al, y, g, src, cis, asc⟩
  simp only [basicScore, specBasicScoreJs]
  have hy : ∀ yv : Int, (yv ≠ 0 ∧ 1950 ≤ yv ∧ yv ≤ 2024) ↔ (1950 ≤ yv ∧ yv ≤ 2024) :=
    fun yv => ⟨fun h => h.2, fun h => ⟨by omega, h⟩⟩
  have hv : ∀ v : ℚ, (v ≠ 0 ∧ 6 ≤ v) ↔ (6 ≤ v) :=
    fun v => ⟨fun h => h.2, fun h => ⟨fun h0 => by rw [h0] at h; norm_num at h, h⟩⟩
  cases y <;> cases cis <;> simp only [hy, hv] <;> split_ifs <;> omega

/-- C7: deduplication is idempotent — applying `removeDuplicateSongsFast`
to its own output returns the same list. -/
theorem claim_C7 (songs : List Song) :
    removeDuplicateSongsFast (removeDuplicateSongsFast songs)
      = removeDuplicateSongsFast songs := by
  have h := removeDup_eq_dedupeSpec songs
  rw [h, removeDup_eq_dedupeSpec, dedupeSpec_idem]

/-- C8: the fallback artist extractor, on the three literal prompts,
returns "Adele" (via the "by X" pattern), "The Weeknd" (via "from X") and
"Bruce Springsteen" (via the proper-noun-songs pattern). -/
theorem claim_C8 :
    extractArtistFromPrompt "love songs by Adele" = some "Adele"
    ∧ extractArtistFromPrompt "songs from The Weeknd" = some "The Weeknd"
    ∧ extractArtistFromPrompt "Bruce Springsteen songs" = some "Bruce Springsteen" :=
  ⟨by decide, by decide, by decide⟩

/-- C9: with a specific artist requested, a verified song whose artist is
missing or empty passes the artist check (the empty string is contained in
the requested artist), so it survives the filter whenever its alignment
score is at least 6; concretely, the artistless `songNoArtistVer` reaches
the final aligned list of `combineAndVerifyAlignmentFast` under the
"adele" constraint. -/
theorem claim_C9 :
    (∀ (c : Constraints) (song : Song) (r : String) (a : ℚ),
      c.specificArtist = some r →
      song.artist = none ∨ song.artist = some "" →
      song.alignment_score = some a → 6 ≤ a →
      passesVerificationFilter c song = true)
    ∧ combineAndVerifyAlignmentFast [songHeyJude] [] "adele hits" none
        (some (some [songNoArtistVer])) artistConstraints
        = .ok [songNoArtistVer] := by
  refine ⟨fun c song r a hr hart halign h6 => ?_, by decide⟩
  simp only [passesVerificationFilter, halign, hr]
  rw [if_neg (not_lt.mpr h6)]
  by_cases hr0 : r = ""
  · rw [if_pos hr0]
  · rw [if_neg hr0]
    have h2 : jsIncludes (jsLower r) "" = true := listIncludes_nil_needle _
    rcases hart with h | h <;> simp [h, h2, show jsLower "" = "" from rfl]

/-- C9 (witness): the filter-passing implication applied to the concrete
artistless verified song under the "adele" constraint. -/
theorem claim_C9_witness :
    passesVerificationFilter artistConstraints songNoArtistVer = true :=
  claim_C9.1 artistConstraints songNoArtistVer "adele" 7 rfl (Or.inl rfl) rfl
    (by decide)

/-- C10: `cosineSimilarity` has no zero guard — whenever either input has
zero magnitude the divisor is zero and the result is no real value at all
(`none`, the model's NaN; the dot product is then provably 0, so the IEEE
value is `0/0 = NaN`, outside [−1, 1]); and the semantic re-rank attaches
exactly these unguarded values as `similarity_score` and feeds them to the
sort, whose output still contains the NaN-scored entry. -/
theorem claim_C10 :
    (∀ vecA vecB : List Real, magnitude vecA = 0 ∨ magnitude vecB = 0 →
      cosineSimilarity vecA vecB = none)
    ∧ (∀ vecA vecB : List Real, vecA.length ≤ vecB.length → magnitude vecA = 0 →
      dotProductJs vecA vecB = some 0)
    ∧ (∀ (songs : List Song) (origEmb : List Real) (embs : List (List Real))
        (i : Nat) (hi : i < songs.length) (he : i < embs.length),
        songs.length ≤ embs.length →
        (songs.get ⟨i, hi⟩, cosineSimilarity origEmb (embs.get ⟨i, he⟩))
          ∈ rankSongsBySementicSimilarityFast songs origEmb (some embs)) := by
  refine ⟨fun v w h => ?_, fun v w hlen h => ?_,
    fun songs origEmb embs i hi he hlen => ?_⟩
  · have hm : magnitude v * magnitude w = 0 := by
      rcases h with h | h <;> rw [h] <;> ring
    rw [cosineSimilarity]
    cases hd : dotProductJs v w with
    | none => rfl
    | some d => simp [jsDiv, hm]
  · rw [dotProductJs, if_neg (by omega)]
    exact congrArg some (zipWith_sum_zero v w (magnitude_zero_elems v h))
  · simp only [rankSongsBySementicSimilarityFast]
    rw [if_neg (by omega)]
    refine (List.mergeSort_perm _ _).mem_iff.mpr ?_
    have hzl : i < (songs.zip embs).length := by rw [List.length_zip]; omega
    have hz : (songs.get ⟨i, hi⟩, embs.get ⟨i, he⟩) ∈ songs.zip embs := by
      have hmem := List.get_mem (songs.zip embs) i hzl
      rw [List.get_eq_getElem, List.getElem_zip] at hmem
      simpa [List.get_eq_getElem] using hmem
    exact List.mem_map.mpr ⟨_, hz, rfl⟩

/-- C10 (witness): at the zero embedding, the similarity is `none` and the
NaN-scored song is in the ranking stage's output. -/
theorem claim_C10_witness :
    cosineSimilarity [(1 : Real)] [(0 : Real)] = none
    ∧ dotProductJs [(0 : Real)] [(1 : Real)] = some 0
    ∧ (songC10, cosineSimilarity [(1 : Real)] [(0 : Real)])
        ∈ rankSongsBySementicSimilarityFast [songC10] [(1 : Real)]
          (some [[(0 : Real)]]) := by
  have hmag : magnitude [(0 : Real)] = 0 := by rw [magnitude]; simp
  exact ⟨claim_C10.1 [(1 : Real)] [(0 : Real)] (Or.inr hmag),
    claim_C10.2.1 [(0 : Real)] [(1 : Real)] (by simp) hmag,
    claim_C10.2.2 [songC10] [(1 : Real)] [[(0 : Real)]] 0 (by simp) (by simp)
      (by simp)⟩

end Moodify
